import Mathlib

/-!
Verification model of the soulx validator core (task queue, dispatcher,
scorer, scoring-results manager, weight engine, metagraph resync).
Python floats are modelled as rationals, Python dicts as ordered
association lists, and caught/uncaught Python exceptions as `Except`.
-/

/-- Python exception kinds that matter for control flow in the embedded code. -/
inductive PyErr where
  | keyError
  | indexError
  | typeError
  | valueError
  | assertionError
deriving DecidableEq, Repr

/-- A JSON value, as produced by `json.loads` on miner responses and payloads. -/
inductive Json where
  | null
  | str (s : String)
  | num (q : ℚ)
  | bool (b : Bool)
  | arr (elems : List Json)
  | obj (fields : List (String × Json))

-- Structural equality of JSON values (Python `==` on parsed JSON).
mutual

def Json.beq : Json → Json → Bool
  | .null, .null => true
  | .str a, .str b => a == b
  | .num a, .num b => a == b
  | .bool a, .bool b => a == b
  | .arr a, .arr b => Json.beqList a b
  | .obj a, .obj b => Json.beqFields a b
  | _, _ => false

def Json.beqList : List Json → List Json → Bool
  | [], [] => true
  | x :: xs, y :: ys => Json.beq x y && Json.beqList xs ys
  | _, _ => false

def Json.beqFields : List (String × Json) → List (String × Json) → Bool
  | [], [] => true
  | (k1, v1) :: xs, (k2, v2) :: ys => k1 == k2 && Json.beq v1 v2 && Json.beqFields xs ys
  | _, _ => false

end

instance : BEq Json := ⟨Json.beq⟩

/-- Containment of one list in another as a contiguous run (used for Python
substring tests). -/
def listContainsSub [BEq α] (sub : List α) : List α → Bool
  | [] => sub.isEmpty
  | a :: rest => sub.isPrefixOf (a :: rest) || listContainsSub sub rest

namespace Json

/-- Python truthiness of a JSON value (`if x:`). -/
def truthy : Json → Bool
  | .null => false
  | .str s => !s.isEmpty
  | .num q => q != 0
  | .bool b => b
  | .arr l => !l.isEmpty
  | .obj l => !l.isEmpty

/-- Python `d[k]` for a string key: dict lookup raising KeyError when the key is
absent, TypeError when the value is not subscriptable by a string. -/
def pySubscript : Json → String → Except PyErr Json
  | .obj fs, k =>
    match fs.find? (fun p => p.1 == k) with
    | some p => .ok p.2
    | none => .error .keyError
  | _, _ => .error .typeError

/-- Python `l[i]` for a non-negative integer index: list indexing raising
IndexError when out of range, TypeError otherwise (dict integer keys do not
occur in the embedded code paths). -/
def pyIndex : Json → ℕ → Except PyErr Json
  | .arr l, i =>
    match l.get? i with
    | some v => .ok v
    | none => .error .indexError
  | _, _ => .error .typeError

/-- Python `len(x)` on str / list / dict, TypeError otherwise. -/
def pyLen : Json → Except PyErr ℕ
  | .str s => .ok s.length
  | .arr l => .ok l.length
  | .obj l => .ok l.length
  | _ => .error .typeError

/-- Python `for x in j`: iterating a list yields elements, iterating a dict
yields its keys as strings; other values raise TypeError (string iteration
does not occur in the embedded code paths). -/
def pyIter : Json → Except PyErr (List Json)
  | .arr l => .ok l
  | .obj l => .ok (l.map (fun p => Json.str p.1))
  | _ => .error .typeError

/-- Python `k in x` for a string: key test on dicts, membership on lists,
substring test on strings, TypeError otherwise. -/
def pyContains (j : Json) (k : String) : Except PyErr Bool :=
  match j with
  | .obj fs => .ok (fs.any (fun p => p.1 == k))
  | .arr l => .ok (l.any (fun e => e == Json.str k))
  | .str s => .ok (listContainsSub k.toList s.toList)
  | _ => .error .typeError

/-- Python `d.get(k)` on a dict (None when absent); the embedded code only
calls `.get` on dicts. -/
def get? (j : Json) (k : String) : Option Json :=
  match j with
  | .obj fs => (fs.find? (fun p => p.1 == k)).map (·.2)
  | _ => none

/-- Python `d[k] = v` on a dict: updates the key in place, or appends it
preserving insertion order. -/
def objSet : Json → String → Json → Json
  | .obj fs, k, v =>
    if fs.any (fun p => p.1 == k) then
      .obj (fs.map (fun p => if p.1 == k then (p.1, v) else p))
    else
      .obj (fs ++ [(k, v)])
  | j, _, _ => j

/-- Whether the JSON value is a dict (`isinstance(x, dict)`). -/
def isObj : Json → Bool
  | .obj _ => true
  | _ => false

end Json

/-- Python `sub in s` for strings: substring containment. -/
def strContains (sub s : String) : Bool :=
  listContainsSub sub.toList s.toList

/-- Python `s.startswith(pre)`. -/
def strStartsWith (pre s : String) : Bool :=
  pre.toList.isPrefixOf s.toList

/-- Python `s.lower()` (character-wise lowering, as in CPython for ASCII). -/
def strToLower (s : String) : String :=
  ⟨s.toList.map Char.toLower⟩

/-- From src/soulx/core/work_and_speed_functions.py: `_calculate_work_text`,
with CHARACTER_TO_TOKEN_CONVERSION = 4.0 and the input-to-output text work
factor = 0.2 from src/soulx/core/constants.py. -/
def calculate_work_text (inp_character_count : ℕ) (out_character_count : ℕ) : ℚ :=
  (out_character_count : ℚ) / 4 + ((inp_character_count : ℚ) / 4) * (1/5)

/-- From src/soulx/core/work_and_speed_functions.py: `_calculate_work_image`,
with IMG_WORK_WINDOW = (128, 128). -/
def calculate_work_image (steps : ℚ) (img_w img_h : ℚ) : ℚ :=
  steps * (img_w / 128 * (img_h / 128))

/-- One iteration of the `for text_json in formatted_response` loop body in
`calculate_work` (text branch): the `try` block computes the characters the
chunk contributes; a KeyError anywhere in it is caught (contributing 0),
every other exception propagates. `fr` is the whole `formatted_response`
value, which the non-comp branch inspects instead of the loop variable. -/
def calculate_work_chunk_chars (task : Option String) (fr : Json) (text_json : Json) :
    Except PyErr ℕ :=
  let body : Except PyErr ℕ :=
    match task with
    | none => .error .typeError
    | some t =>
      if strContains "-comp" t then
        match text_json.pySubscript "choices" with
        | .error e => .error e
        | .ok cs =>
          match cs.pyIndex 0 with
          | .error e => .error e
          | .ok c0 =>
            match c0.pySubscript "text" with
            | .error e => .error e
            | .ok tx => tx.pyLen
      else
        if fr.isObj && (text_json == Json.str "choices") then
          match fr.pySubscript "choices" with
          | .error e => .error e
          | .ok cs =>
            if cs.truthy then
              match cs.pyIndex 0 with
              | .error e => .error e
              | .ok choice =>
                match choice.pyContains "message" with
                | .error e => .error e
                | .ok hasMsg =>
                  if hasMsg then
                    match choice.pySubscript "message" with
                    | .error e => .error e
                    | .ok m =>
                      match m.pySubscript "content" with
                      | .error e => .error e
                      | .ok c => c.pyLen
                  else
                    match choice.pyContains "delta" with
                    | .error e => .error e
                    | .ok hasDelta =>
                      if hasDelta then
                        match choice.pySubscript "delta" with
                        | .error e => .error e
                        | .ok d =>
                          match d.pyContains "content" with
                          | .error e => .error e
                          | .ok hasContent =>
                            if hasContent then
                              match d.pySubscript "content" with
                              | .error e => .error e
                              | .ok c => c.pyLen
                            else .ok 0
                      else .ok 0
            else .ok 0
        else .ok 0
  match body with
  | .ok n => .ok n
  | .error .keyError => .ok 0
  | .error e => .error e

/-- The whole `for text_json in formatted_response` character-count loop of
`calculate_work` (text branch), accumulating over the chunks. -/
def calculate_work_chars (task : Option String) (fr : Json) :
    List Json → ℕ → Except PyErr ℕ
  | [], acc => .ok acc
  | text_json :: rest, acc =>
    match calculate_work_chunk_chars task fr text_json with
    | .ok n => calculate_work_chars task fr rest (acc + n)
    | .error e => .error e

/-- From src/soulx/core/work_and_speed_functions.py: `calculate_work`.
Returns (volume, num_tokens); a raised Python exception is an `.error`.
The task-type comparisons are against `cmodels.TaskType.IMAGE.value` and
`TaskType.TEXT.value`, which are the uppercase strings "IMAGE" and "TEXT"
(src/soulx/core/models/config_models.py) - note the repository's own task
config tables store the lowercase "image" / "text", which this function
rejects with ValueError. `formatted_response` is the already-parsed
response (`None` or JSON); the `json.loads` branch for string-typed
responses is not modelled because the validator always stores a parsed
list / dict / None in `formatted_response`. -/
def calculate_work (task_type : Option String) (task : Option String)
    (formatted_response : Option Json) (inp_character_count : ℕ)
    (steps : Option ℚ) (img_w img_h : Option ℚ) : Except PyErr (ℚ × ℚ) :=
  match formatted_response with
  | none => .ok (0, 0)
  | some raw =>
    if !raw.truthy then .ok (0, 0)
    else if task_type == some "IMAGE" then
      match steps with
      | none => .error .assertionError
      | some st =>
        if img_w == none && img_h == none then .error .assertionError
        else
          match img_w, img_h with
          | some w, some h => .ok (calculate_work_image st w h, calculate_work_image st w h)
          | _, _ => .error .typeError
    else if task_type == some "TEXT" then
      match raw.pyIter with
      | .error e => .error e
      | .ok items =>
        match calculate_work_chars task raw items 0 with
        | .error e => .error e
        | .ok character_count =>
          if character_count == 0 then
            .ok (1, 1)
          else
            match raw.pyLen with
            | .error e => .error e
            | .ok len => .ok (calculate_work_text inp_character_count character_count, (len : ℚ))
    else .error .valueError

/-- Python `min(a, b)` on rationals, written with a decidable comparison so
that kernel reduction can evaluate it. -/
def pyMin (a b : ℚ) : ℚ := if a ≤ b then a else b

/-- Python `max(a, b)` on rationals, written with a decidable comparison so
that kernel reduction can evaluate it. -/
def pyMax (a b : ℚ) : ℚ := if b ≤ a then a else b

/-- The request payload fields the scorer and dispatcher read
(src/soulx: `payload` dict). `messages` elements are JSON dicts. -/
structure PayloadE where
  prompt : Option String
  messages : Option (List Json)
  steps : Option ℚ
  width : Option ℚ
  height : Option ℚ

/-- The fields of `TaskConfig` dicts that the scoring path reads
(`task_config.get("task_type")`, `task_config.get("task")`). -/
structure TaskConfigE where
  task_type : Option String
  task : Option String

/-- From src/soulx/core/models/utility_models.py: `QueryResult`
(`created_at` is omitted: no embedded code path branches on it). -/
structure QueryResultE where
  formatted_response : Option Json
  node_id : Option ℤ
  node_hotkey : Option String
  response_time : Option ℚ
  stream_time : Option ℚ
  task : String
  status_code : Option ℤ
  success : Bool

/-- The inner loop over a list-form `content` in
`LocalScoringSystem._calculate_input_character_count`: sums the text length
of items with `type == "text"`. -/
def input_chars_content_items : List Json → ℕ → Except PyErr ℕ
  | [], acc => .ok acc
  | item :: rest, acc =>
    match item with
    | .obj _ =>
      if (item.get? "type").getD .null == Json.str "text" then
        match ((item.get? "text").getD (.str "")).pyLen with
        | .ok n => input_chars_content_items rest (acc + n)
        | .error e => .error e
      else input_chars_content_items rest acc
    | _ => input_chars_content_items rest acc

/-- The loop over `payload["messages"]` in
`LocalScoringSystem._calculate_input_character_count`. -/
def input_chars_messages : List Json → ℕ → Except PyErr ℕ
  | [], acc => .ok acc
  | m :: rest, acc =>
    match m with
    | .obj _ =>
      match (m.get? "content").getD (.str "") with
      | .str s => input_chars_messages rest (acc + s.length)
      | .arr items =>
        match input_chars_content_items items acc with
        | .ok acc2 => input_chars_messages rest acc2
        | .error e => .error e
      | _ => input_chars_messages rest acc
    | _ => .error .typeError

/-- From src/soulx/validator/scoring_system.py:
`LocalScoringSystem._calculate_input_character_count`. The `payload.get`
tests are Python truthiness tests, so an empty prompt or message list falls
through. -/
def calculate_input_character_count (p : PayloadE) : Except PyErr ℕ :=
  match p.prompt with
  | some s =>
    if !s.isEmpty then .ok s.length
    else
      match p.messages with
      | some ms => if ms.isEmpty then .ok 0 else input_chars_messages ms 0
      | none => .ok 0
  | none =>
    match p.messages with
    | some ms => if ms.isEmpty then .ok 0 else input_chars_messages ms 0
    | none => .ok 0

/-- Python `x or ""` applied to an extracted content value. -/
def orEmptyStr (j : Json) : Json :=
  if j.truthy then j else .str ""

/-- The content-extraction part of
`LocalScoringSystem._score_chat_task`: first block of the formatted
response, then `choices`, then `message.content` or `delta.content`.
The attribute-access branches for non-dict objects are unreachable for
parsed JSON values and are not modelled. -/
def score_chat_content (fr : Json) : Json :=
  let first_block : Option Json :=
    match fr with
    | .arr l => l.head?
    | .obj fs => some (.obj fs)
    | _ => none
  match first_block with
  | none => .str ""
  | some fb =>
    let choices : Option Json := if fb.isObj then fb.get? "choices" else none
    let choice : Option Json :=
      match choices with
      | some (.arr (c :: _)) => some c
      | some (.obj fs) => some (.obj fs)
      | _ => none
    match choice with
    | some (.obj cfs) =>
      let c := Json.obj cfs
      match c.get? "message" with
      | some m =>
        if m.isObj then orEmptyStr ((m.get? "content").getD (.str ""))
        else
          match c.get? "delta" with
          | some d => if d.isObj then orEmptyStr ((d.get? "content").getD (.str "")) else .str ""
          | none => .str ""
      | none =>
        match c.get? "delta" with
        | some d => if d.isObj then orEmptyStr ((d.get? "content").getD (.str "")) else .str ""
        | none => .str ""
    | _ => .str ""

/-- From src/soulx/validator/scoring_system.py: `_score_chat_task`. -/
def score_chat_task (r : QueryResultE) (metric stream_metric : ℚ) : ℚ :=
  let score : ℚ := 1/2
  let score :=
    match r.formatted_response with
    | some fr =>
      if fr.truthy then
        match score_chat_content fr with
        | .str s =>
          if !s.isEmpty then
            let score := if s.length > 10 then score + 1/5 else score
            let lowered := strToLower s
            if strContains "hello" lowered || strContains "hi" lowered then score + 1/10
            else score
          else score
        | _ => score
      else score
    | none => score
  let score :=
    if 0 < metric then
      if 100 < metric then score + 1/5
      else if 50 < metric then score + 1/10
      else score
    else score
  let score :=
    if 0 < stream_metric then
      if 50 < stream_metric then score + 1/10 else score
    else score
  pyMin 1 score

/-- From src/soulx/validator/scoring_system.py: `_score_image_task`. -/
def score_image_task (r : QueryResultE) (metric : ℚ) : ℚ :=
  let score : ℚ := 1/2
  let score :=
    match r.response_time with
    | some t =>
      if t != 0 && t < 10 then score + 1/5
      else if t != 0 && t < 20 then score + 1/10
      else score
    | none => score
  let score :=
    if 0 < metric then
      if 50 < metric then score + 1/5
      else if 20 < metric then score + 1/10
      else score
    else score
  pyMin 1 score

/-- From src/soulx/validator/scoring_system.py: `_score_avatar_task`. -/
def score_avatar_task (r : QueryResultE) (metric : ℚ) : ℚ :=
  let score : ℚ := 1/2
  let score :=
    match r.response_time with
    | some t =>
      if t != 0 && t < 30 then score + 1/5
      else if t != 0 && t < 60 then score + 1/10
      else score
    | none => score
  let score :=
    if 0 < metric then
      if 30 < metric then score + 1/5
      else if 10 < metric then score + 1/10
      else score
    else score
  pyMin 1 score

/-- From src/soulx/validator/scoring_system.py: `_score_generic_task`. -/
def score_generic_task (r : QueryResultE) (metric stream_metric : ℚ) : ℚ :=
  let score : ℚ := 1/2
  let score :=
    match r.response_time with
    | some t =>
      if t != 0 && t < 15 then score + 1/5
      else if t != 0 && t < 30 then score + 1/10
      else score
    | none => score
  let score :=
    if 0 < metric then
      if 100 < metric then score + 1/5
      else if 50 < metric then score + 1/10
      else score
    else score
  let _ := stream_metric
  pyMin 1 score

/-- From src/soulx/validator/scoring_system.py: `_calculate_base_score`. -/
def calculate_base_score (r : QueryResultE) (metric stream_metric : ℚ) : ℚ :=
  if !r.success || r.status_code != some 200 then 0
  else if (match r.response_time with
           | some t => t != 0 && 30 < t
           | none => false) then 1/10
  else if strStartsWith "chat-" r.task then score_chat_task r metric stream_metric
  else if strStartsWith "text-to-image" r.task then score_image_task r metric
  else if strStartsWith "image-to-image" r.task then score_image_task r metric
  else if strStartsWith "avatar" r.task then score_avatar_task r metric
  else score_generic_task r metric stream_metric

/-- From src/soulx/validator/scoring_system.py: `_apply_quality_adjustments`. -/
def apply_quality_adjustments (base_score : ℚ) (status_code : Option ℤ)
    (metric stream_metric : ℚ) : ℚ :=
  let adjusted :=
    if status_code == some 200 then base_score * 1
    else if status_code == some 400 then base_score * (3/10)
    else if status_code == some 429 then base_score * (1/5)
    else if status_code == some 500 then base_score * (1/10)
    else base_score * (1/2)
  let adjusted :=
    if 0 < metric then adjusted * (4/5 + (1/5) * pyMin (metric / 100) 1)
    else adjusted
  let adjusted :=
    if 0 < stream_metric then adjusted * (9/10 + (1/10) * pyMin (stream_metric / 50) 1)
    else adjusted
  adjusted

/-- From src/soulx/validator/scoring_system.py: `LocalScoringSystem.score_result`.
A Python exception inside the `try` block yields 0.0. -/
def score_result (r : QueryResultE) (p : PayloadE) (task_config : Option TaskConfigE) : ℚ :=
  match task_config with
  | none => 0
  | some tc =>
    match calculate_input_character_count p with
    | .error _ => 0
    | .ok inp =>
      match calculate_work tc.task_type tc.task r.formatted_response inp p.steps p.width p.height with
      | .error _ => 0
      | .ok (volume, num_tokens) =>
        let metric :=
          match r.response_time with
          | some t => if t != 0 then volume / t else 0
          | none => 0
        let stream_metric :=
          match r.stream_time with
          | some t => if t != 0 then num_tokens / t else 0
          | none => 0
        let base_score := calculate_base_score r metric stream_metric
        let quality_score := apply_quality_adjustments base_score r.status_code metric stream_metric
        pyMax 0 (pyMin 1 quality_score)

/-- From src/soulx/validator/soulx_validator.py: the submission tail of
`SoulxValidator.set_weights` (the blacklist gate through the
`subtensor.set_weights` call). Inputs are the `miner_indices` and `weights`
lists built by the per-uid scoring loop, the metagraph size, the subnet
owner uid as returned by `get_subnet_owner_uid`, and the configured
`owner_default_score`. `none` models a return with failure (blacklisted,
no subnet owner, or the IndexError raised when `weights[owner_uid]` is out
of range); `some (uids, weights)` is the vector passed to the chain. -/
def set_weights_submission (is_blacklisted : Bool) (miner_indices : List ℕ)
    (weights : List ℚ) (num_hotkeys : ℕ) (owner_uid : Option ℕ)
    (owner_default_score : ℚ) : Option (List ℕ × List ℚ) :=
  if is_blacklisted then none
  else if weights.isEmpty || weights.all (fun w => w == 0) then
    match owner_uid with
    | none => none
    | some _ => some (List.range num_hotkeys, List.replicate num_hotkeys 0)
  else
    let total_weight := weights.sum
    if 0 < total_weight then
      let thresholded := weights.map (fun w => if 1/1000 ≤ w then w else 0)
      let total1 := thresholded.sum
      if 0 < total1 then
        some (miner_indices, thresholded.map (fun w => w / total1))
      else
        match owner_uid with
        | some ou =>
          if ou < num_hotkeys then
            some (miner_indices, (List.replicate num_hotkeys (0 : ℚ)).set ou owner_default_score)
          else none
        | none => some (miner_indices, thresholded)
    else some (miner_indices, weights)

/-- Modelled from the spec (section 4.6, steps 7-9): the same submission
tail with the whitelist policy the spec prescribes, "if not whitelisted,
multiply every weight by the penalty coefficient", applied before the
threshold and normalization steps. Written for comparison with
`set_weights_submission`, which embeds the source. -/
def set_weights_submission_spec (is_blacklisted whitelisted : Bool) (penalty : ℚ)
    (miner_indices : List ℕ) (weights : List ℚ) (num_hotkeys : ℕ)
    (owner_uid : Option ℕ) (owner_default_score : ℚ) : Option (List ℕ × List ℚ) :=
  if is_blacklisted then none
  else
    let weights := if whitelisted then weights else weights.map (fun w => w * penalty)
    if weights.isEmpty || weights.all (fun w => w == 0) then
      match owner_uid with
      | none => none
      | some _ => some (List.range num_hotkeys, List.replicate num_hotkeys 0)
    else
      let total_weight := weights.sum
      if 0 < total_weight then
        let thresholded := weights.map (fun w => if 1/1000 ≤ w then w else 0)
        let total1 := thresholded.sum
        if 0 < total1 then
          some (miner_indices, thresholded.map (fun w => w / total1))
        else
          match owner_uid with
          | some ou =>
            if ou < num_hotkeys then
              some (miner_indices, (List.replicate num_hotkeys (0 : ℚ)).set ou owner_default_score)
            else none
          | none => some (miner_indices, thresholded)
      else some (miner_indices, weights)

/-- From src/soulx/validator/scoring_results_manager.py: the fields of
`ScoringResult` (timestamps as seconds since an epoch). -/
structure ScoringResultE where
  hotkey : String
  node_id : ℤ
  task : String
  quality_score : ℚ
  timestamp : ℚ
  synthetic_query : Bool
  response_time : ℚ
  success : Bool
  status_code : ℤ

/-- From src/soulx/validator/scoring_results_manager.py: the two dict
fields of `ScoringResultsManager`, as insertion-ordered association lists. -/
structure SRMState where
  scoring_results : List (String × List ScoringResultE)
  historical_scores : List (String × ℚ)

/-- Lookup with default in an association list (`dict.get(k, d)`). -/
def alistGet (l : List (String × α)) (k : String) (d : α) : α :=
  match l.find? (fun p => p.1 == k) with
  | some p => p.2
  | none => d

/-- Assignment `d[k] = v` in an association list: update in place or append. -/
def alistSet (l : List (String × α)) (k : String) (v : α) : List (String × α) :=
  if l.any (fun p => p.1 == k) then
    l.map (fun p => if p.1 == k then (p.1, v) else p)
  else l ++ [(k, v)]

/-- Mean quality score of a nonempty result list
(`sum(r.quality_score for r in results) / len(results)`). -/
def mean_quality (results : List ScoringResultE) : ℚ :=
  (results.map (fun r => r.quality_score)).sum / results.length

/-- From src/soulx/validator/scoring_results_manager.py:
`ScoringResultsManager._start_new_cycle` at wall-clock time `now`
(seconds): rolls each hotkey's current-cycle mean into its historical
score with alpha = 0.3, then prunes results older than 24 hours. -/
def start_new_cycle (now : ℚ) (st : SRMState) : SRMState :=
  let historical :=
    st.scoring_results.foldl
      (fun hist p =>
        let results := p.2
        if results.isEmpty then hist
        else
          let current_score := mean_quality results
          let historical_score := alistGet hist p.1 0
          if historical_score == 0 then alistSet hist p.1 current_score
          else alistSet hist p.1 ((3/10) * current_score + (1 - 3/10) * historical_score))
      st.historical_scores
  let cutoff_time := now - 86400
  let pruned := st.scoring_results.map
    (fun p => (p.1, p.2.filter (fun r => cutoff_time ≤ r.timestamp)))
  { scoring_results := pruned, historical_scores := historical }

/-- From src/soulx/validator/scoring_results_manager.py:
`ScoringResultsManager.clear_current_cycle_scores`: clears both dicts. -/
def clear_current_cycle_scores (_st : SRMState) : SRMState :=
  { scoring_results := [], historical_scores := [] }

/-- From src/soulx/validator/soulx_validator.py (`set_weights`, success
branch): after a successful chain submission the validator calls
`scoring_results_manager.clear_current_cycle_scores()`. -/
def set_weights_on_success (st : SRMState) : SRMState :=
  clear_current_cycle_scores st

/-- From src/soulx/validator/redis_queue_manager.py: the two Redis keys
used by `RedisQueueManager` - the task-id set and the task list. -/
structure RedisQueueState where
  seen : List String
  queue : List String
deriving DecidableEq, Repr

/-- From src/soulx/validator/redis_queue_manager.py:
`RedisQueueManager.add_task_to_queue`. The Lua script it EVALs runs as a
single server-side atomic step, so it is one transition here: SADD the
task id, and RPUSH the task JSON only when the id was newly added. A task
with no extractable `task_id` makes the EVAL raise, which the method
catches, returning false without touching the state. -/
def add_task_to_queue (st : RedisQueueState) (task_id : Option String)
    (task_json : String) : RedisQueueState × Bool :=
  match task_id with
  | none => (st, false)
  | some tid =>
    if tid ∈ st.seen then (st, false)
    else ({ seen := tid :: st.seen, queue := st.queue ++ [task_json] }, true)

/-- From src/soulx/validator/__init__.py: the score-carrying state that
`BaseValidator.resync_metagraph` mutates. -/
structure ValidatorArrays where
  hotkeys : List String
  scores : List ℚ
  moving_avg_scores : List ℚ

/-- The hotkey-replacement pass of `resync_metagraph`: for each uid of the
previous hotkey list that still exists in the new metagraph and whose
hotkey changed, reset the score at that uid to 0 (the source mutates the
arrays in place; this is that loop under the documented invariant that the
arrays have the previous metagraph's length). -/
def resync_zero_replaced (prev new : List String) (arr : List ℚ) : List ℚ :=
  (List.range arr.length).map
    (fun i =>
      if i < new.length && (prev.get? i != new.get? i) then 0
      else arr.getD i 0)

/-- The growth pass of `resync_metagraph`: allocate `new_size` zeros and
copy the first `min old_size (len arr)` existing entries. -/
def resync_grow (old_size new_size : ℕ) (arr : List ℚ) : List ℚ :=
  (List.range new_size).map
    (fun i => if i < min old_size arr.length then arr.getD i 0 else 0)

/-- From src/soulx/validator/__init__.py: `BaseValidator.resync_metagraph`,
with the fresh metagraph's hotkey list as input (chain reads elided). -/
def resync_metagraph (st : ValidatorArrays) (new_hotkeys : List String) : ValidatorArrays :=
  if st.hotkeys == new_hotkeys then st
  else
    let prev := st.hotkeys
    let scores1 := resync_zero_replaced prev new_hotkeys st.scores
    let moving1 := resync_zero_replaced prev new_hotkeys st.moving_avg_scores
    if prev.length < new_hotkeys.length then
      { hotkeys := new_hotkeys
        scores := resync_grow prev.length new_hotkeys.length scores1
        moving_avg_scores := resync_grow prev.length new_hotkeys.length moving1 }
    else
      { hotkeys := new_hotkeys, scores := scores1, moving_avg_scores := moving1 }

/-- What `load_sse_jsons` handed back for one text event inside
`consume_generator` (src/soulx/validator/query/streaming.py): a dict-shaped
error event, a parse failure (IndexError / JSONDecodeError, caught with a
`break`), or the normal list of parsed chunks. -/
inductive StreamEvent where
  | errorEvent (payload : Json)
  | parseFailure
  | chunks (cs : List Json)

/-- The `sum(len(message["content"]) for message in payload["messages"])`
loop feeding `consume_num_input_tokens`. -/
def consume_messages_char_sum : List Json → ℕ → Except PyErr ℕ
  | [], acc => .ok acc
  | m :: rest, acc =>
    match m.pySubscript "content" with
    | .error e => .error e
    | .ok c =>
      match c.pyLen with
      | .error e => .error e
      | .ok n => consume_messages_char_sum rest (acc + n)

/-- The `num_input_tokens` computation at the top of `consume_generator`'s
`try` block, with CHARACTER_TO_TOKEN_CONVERSION = 4.0 (the `is not None`
tests are identity tests, not truthiness). -/
def consume_num_input_tokens (prompt : Option String) (messages : Option (List Json)) :
    Except PyErr ℤ :=
  match prompt with
  | some s => .ok ((s.length : ℤ) / 4)
  | none =>
    match messages with
    | some ms =>
      match consume_messages_char_sum ms 0 with
      | .ok n => .ok ((n : ℤ) / 4)
      | .error e => .error e
    | none => .ok 0

/-- The per-chunk content probe in `consume_generator`:
`text_json["choices"][0]["text"]` for comp tasks, else
`text_json["choices"][0]["delta"]["content"]`. A KeyError is caught by the
loop; any other error propagates to the `except` clause. -/
def consume_chunk_access (comp : Bool) (c : Json) : Except PyErr Json :=
  match c.pySubscript "choices" with
  | .error e => .error e
  | .ok cs =>
    match cs.pyIndex 0 with
    | .error e => .error e
    | .ok c0 =>
      if comp then c0.pySubscript "text"
      else
        match c0.pySubscript "delta" with
        | .error e => .error e
        | .ok d => d.pySubscript "content"

/-- The `"finish_reason" in text_json["choices"][0]` test in
`consume_generator`. -/
def finish_reason_present (c : Json) : Except PyErr Bool :=
  match c.pySubscript "choices" with
  | .error e => .error e
  | .ok cs =>
    match cs.pyIndex 0 with
    | .error e => .error e
    | .ok c0 => c0.pyContains "finish_reason"

/-- The `for text_json in loaded_jsons` loop of `consume_generator`.
State: accumulated `text_jsons`, `out_tokens_counter`, `first_message`.
A non-dict chunk or a KeyError sets `first_message = True` and breaks; a
valid chunk is annotated with its cumulative `usage` and appended, setting
`first_message = False`; a `finish_reason` breaks after appending. -/
def consume_inner (comp : Bool) (nit : ℤ) :
    List Json → List Json → ℤ → Bool → Except PyErr (List Json × ℤ × Bool)
  | [], acc, counter, first => .ok (acc, counter, first)
  | c :: rest, acc, counter, _first =>
    match c with
    | .obj _ =>
      match consume_chunk_access comp c with
      | .error .keyError => .ok (acc, counter, true)
      | .error e => .error e
      | .ok _ =>
        let counter1 := counter + 1
        let c1 := c.objSet "usage" (.obj
          [("prompt_tokens", .num (nit : ℚ)),
           ("completion_tokens", .num (counter1 : ℚ)),
           ("total_tokens", .num ((nit + counter1 : ℤ) : ℚ))])
        let acc1 := acc ++ [c1]
        match finish_reason_present c1 with
        | .error e => .error e
        | .ok true => .ok (acc1, counter1, false)
        | .ok false => consume_inner comp nit rest acc1 counter1 false
    | _ => .ok (acc, counter, true)

/-- The `async for text in generator` loop of `consume_generator`: a
dict-shaped error event reads its status code into a local variable and
breaks, a parse failure breaks, a chunk list runs the inner loop and
continues. -/
def consume_outer (comp : Bool) (nit : ℤ) :
    List StreamEvent → List Json → ℤ → Bool → Except PyErr (List Json × Bool)
  | [], acc, _, first => .ok (acc, first)
  | ev :: rest, acc, counter, first =>
    match ev with
    | .errorEvent _ => .ok (acc, first)
    | .parseFailure => .ok (acc, first)
    | .chunks cs =>
      match consume_inner comp nit cs acc counter first with
      | .error e => .error e
      | .ok (acc1, counter1, first1) => consume_outer comp nit rest acc1 counter1 first1

/-- From src/soulx/validator/query/streaming.py:
`construct_500_query_result`. -/
def construct_500_query_result (node_id : ℤ) (node_hotkey : String) (task : String) :
    QueryResultE :=
  { formatted_response := none
    node_id := some node_id
    node_hotkey := some node_hotkey
    response_time := none
    stream_time := none
    task := task
    status_code := some 500
    success := false }

/-- From src/soulx/validator/query/streaming.py: `consume_generator`.
`events` is what `load_sse_jsons` produced for the successive stream
texts; `response_time` is the measured dispatch-to-end span and
`stream_time_measured` the first-chunk-to-end span (used only when at
least one chunk was appended, matching `stream_time_init`). Any Python
exception inside the `try` yields the 500 result; otherwise the result
carries `status_code = 200` and `success = not first_message`. -/
def consume_generator (task : String) (events : List StreamEvent)
    (prompt : Option String) (messages : Option (List Json))
    (node_id : ℤ) (node_hotkey : String)
    (response_time stream_time_measured : ℚ) : QueryResultE :=
  let comp := strContains "comp" task
  match consume_num_input_tokens prompt messages with
  | .error _ => construct_500_query_result node_id node_hotkey task
  | .ok nit =>
    match consume_outer comp nit events [] 0 true with
    | .error _ => construct_500_query_result node_id node_hotkey task
    | .ok (text_jsons, first_message) =>
      let stream_time := if text_jsons.isEmpty then response_time else stream_time_measured
      { formatted_response := if 0 < text_jsons.length then some (.arr text_jsons) else none
        node_id := some node_id
        node_hotkey := some node_hotkey
        response_time := some response_time
        stream_time := some stream_time
        task := task
        status_code := some 200
        success := !first_message }

/-- The externally visible effects of one
`adjust_contender_from_result` call (src/soulx/validator/common/utils.py). -/
structure AdjustEffects where
  quality_score : Option ℚ
  reward_emitted : Bool
  scoring_recorded : Bool
deriving DecidableEq, Repr

/-- From src/soulx/validator/common/utils.py: `adjust_contender_from_result`
on the `sus_task = False` path (the sus block is skipped entirely then).
A missing task config returns `(result, None)` without doing anything;
a 200-success result is scored, recorded in the scoring-results manager,
and a RewardData row is inserted when a reward client is configured; every
other result only gets `quality_score = 0.0`. -/
def adjust_contender_from_result (r : QueryResultE) (p : PayloadE)
    (task_config : Option TaskConfigE) (has_reward_client : Bool) : AdjustEffects :=
  match task_config with
  | none => { quality_score := none, reward_emitted := false, scoring_recorded := false }
  | some tc =>
    if r.status_code == some 200 && r.success then
      { quality_score := some (score_result r p (some tc))
        reward_emitted := has_reward_client
        scoring_recorded := true }
    else
      { quality_score := some 0, reward_emitted := false, scoring_recorded := false }

/-- From src/soulx/validator/contender_allocator.py:
`ContenderAllocator._update_contender_stats` - the stats dict sent back to
the configuration service (total_requests_made, requests_429, requests_500):
a failed dispatch increments requests_500. -/
def update_contender_stats (total_requests_made requests_429 requests_500 : ℕ)
    (success : Bool) : ℕ × ℕ × ℕ :=
  (total_requests_made, requests_429, if success then requests_500 else requests_500 + 1)

/-- From src/soulx/validator/soulx_validator.py (the handshake loop) as
read by the allocator: one entry of `node_handshake_data`. -/
structure HandshakeData where
  handshake_success : Bool
  symmetric_key : Option String
  symmetric_key_uid : Option String

/-- Which key material the node handed to the query layer was built from. -/
inductive NodeKind where
  | handshakeKey
  | freshKey
deriving DecidableEq, Repr

/-- From src/soulx/validator/contender_allocator.py:
`ContenderAllocator._create_node_for_query`. `fernet_ok` is whether
`Fernet(symmetric_key)` construction succeeds (its failure is caught and
falls through). With a missing session, a session whose
`handshake_success` is false, or unusable key material, the method does
not return None: it falls back to a freshly generated Fernet key and a
random symmetric_key_uuid, so a node is still produced whenever the
node cache has the hotkey. -/
def create_node_for_query (node_hotkey : Option String) (node_data_present : Bool)
    (handshake_data : Option HandshakeData) (fernet_ok : Bool) : Option NodeKind :=
  match node_hotkey with
  | none => none
  | some hk =>
    if hk.isEmpty then none
    else if !node_data_present then none
    else
      let via_handshake : Option NodeKind :=
        match handshake_data with
        | some h =>
          if h.handshake_success then
            match h.symmetric_key, h.symmetric_key_uid with
            | some k, some u =>
              if !k.isEmpty && !u.isEmpty && fernet_ok then some .handshakeKey else none
            | _, _ => none
          else none
        | none => none
      match via_handshake with
      | some n => some n
      | none => if node_data_present then some .freshKey else none

/-- From src/soulx/validator/contender_allocator.py: whether
`_handle_stream_query` reaches `query_node_stream`'s
`client.make_streamed_post` call, i.e. actually issues the HTTP request to
the miner: it does whenever the config, node, contender object and task
config were all produced and the keypair supports signing. -/
def handle_stream_query_issues_http (config_ok : Bool) (node : Option NodeKind)
    (contender_obj_ok task_config_ok keypair_sign_ok : Bool) : Bool :=
  config_ok && node.isSome && contender_obj_ok && task_config_ok && keypair_sign_ok

/-! Concrete inputs used by the theorems below. -/

/-- A scoring-results-manager state with one hotkey that has one
current-cycle result (quality 0.8 at time 1000) and historical score 0.5. -/
def srm_example_state : SRMState :=
  { scoring_results :=
      [("hk1", [{ hotkey := "hk1", node_id := 7, task := "chat-llama-3-2-3b",
                  quality_score := 4/5, timestamp := 1000, synthetic_query := true,
                  response_time := 1, success := true, status_code := 200 }])]
    historical_scores := [("hk1", 1/2)] }

/-- One parsed stream chunk of the S1 scenario: delta content "A". -/
def s1_chunk : Json :=
  .obj [("choices", .arr [.obj [("delta", .obj [("content", .str "A")])]])]

/-- A payload with no prompt, messages, steps or resolution. -/
def empty_payload : PayloadE := ⟨none, none, none, none, none⟩

/-- The task config of the S1 chat task, with the task_type spelling that
`calculate_work` accepts (`TaskType.TEXT.value = "TEXT"`; the repository's
config tables store the lowercase "text", which `calculate_work` rejects
with ValueError). -/
def chat_task_config : TaskConfigE := ⟨some "TEXT", some "chat-llama-3-2-3b"⟩

/-- A rate-limited query result (HTTP 429, failed). -/
def result_429 : QueryResultE :=
  { formatted_response := none, node_id := some 7, node_hotkey := some "hk1"
    response_time := some 2, stream_time := none, task := "chat-llama-3-2-3b"
    status_code := some 429, success := false }

/-- A successful chat result that took 40 seconds, whose single response
dict carries an 8-character message content. -/
def slow_chat_result : QueryResultE :=
  { formatted_response :=
      some (.obj [("choices", .arr [.obj [("message", .obj [("content", .str "ABCDEFGH")])]])])
    node_id := some 7, node_hotkey := some "hk1"
    response_time := some 40, stream_time := none
    task := "chat-llama-3-2-3b", status_code := some 200, success := true }

/-- A stream chunk with valid delta content. -/
def valid_chunk : Json :=
  .obj [("choices", .arr [.obj [("delta", .obj [("content", .str "A")])]])]

/-- A stream chunk whose first choice has neither delta content nor text. -/
def invalid_chunk : Json :=
  .obj [("choices", .arr [.obj [("text_off", .null)]])]
/-- Claim C1 (code evidence): the claim says that when the weight list is
empty or all zero the entire mass owner_default_score is assigned to the
subnet-owner uid, but the code submits an all-zero vector over every uid:
with no computed weights, metagraph size 3, owner uid 1 and
owner_default_score 0.2 the submitted vector is the zero vector, and the
owner entry 0 differs from owner_default_score. (In the other branches the
normalized nonzero weights do sum to 1.) -/
theorem set_weights_empty_cycle_submits_all_zero :
    set_weights_submission false [] [] 3 (some 1) (1/5) = some ([0, 1, 2], [0, 0, 0]) ∧
    (1 : ℚ)/5 ≠ 0 := by
  constructor
  · simp +decide [set_weights_submission, List.range_succ]
  · norm_num

/-- Claim C3 counterexample: the claim says a non-whitelisted validator
multiplies every weight by the penalty coefficient before normalization,
but at weights 0.9 and 0.8 with the default penalty coefficient 1e-9 the
source submits the plainly normalized vector while the spec-modelled
penalty pipeline collapses below the 0.001 threshold and reassigns the
mass to the subnet owner - the two submissions differ. -/
theorem set_weights_penalty_not_applied_cex :
    set_weights_submission false [0, 1] [9/10, 4/5] 3 (some 2) (1/5) =
      some ([0, 1], [9/17, 8/17]) ∧
    set_weights_submission_spec false false (1/1000000000) [0, 1] [9/10, 4/5] 3 (some 2) (1/5) =
      some ([0, 1], [0, 0, 1/5]) ∧
    some (([0, 1], [(9:ℚ)/17, 8/17]) : List ℕ × List ℚ) ≠ some ([0, 1], [0, 0, 1/5]) := by
  refine ⟨?_, ?_, ?_⟩
  · norm_num [set_weights_submission]
  · norm_num [set_weights_submission_spec, List.range_succ,
      show List.replicate 3 (0:ℚ) = [0, 0, 0] from rfl]
  · simp

/-- Claim C3 amended: a blacklisted validator hotkey aborts the
submission, but the penalty coefficient is never applied: for every input
the source submission equals the spec-modelled pipeline run as if the
validator were whitelisted, independently of the penalty coefficient. -/
theorem set_weights_ignores_whitelist_penalty (b : Bool) (penalty : ℚ)
    (mi : List ℕ) (w : List ℚ) (n : ℕ) (ou : Option ℕ) (od : ℚ) :
    set_weights_submission b mi w n ou od =
      set_weights_submission_spec b true penalty mi w n ou od := by
  unfold set_weights_submission set_weights_submission_spec
  simp

/-- Claim C4 (code evidence): the claim says a successful weight
submission rolls the cycle mean into the historical score with
h = 0.3 c + 0.7 h and clears only the current cycle, historical scores
surviving. The code instead calls clear_current_cycle_scores, which
empties the historical scores as well and performs no smoothing; the dead
method start_new_cycle is the one that computes 0.3 * 0.8 + 0.7 * 0.5 =
0.59 as the claim describes, and it is never invoked. -/
theorem weight_submission_success_drops_historical :
    (set_weights_on_success srm_example_state).historical_scores = [] ∧
    (set_weights_on_success srm_example_state).scoring_results = [] ∧
    (start_new_cycle 2000 srm_example_state).historical_scores = [("hk1", 59/100)] := by
  refine ⟨rfl, rfl, ?_⟩
  norm_num [start_new_cycle, srm_example_state, mean_quality, alistGet, alistSet]

/-- Claim C5 (code evidence): for the S1 scenario (three chunks with
delta content "A", input character count 2) the claim expects
volume 0.85 and num_tokens 3, but calculate_work returns volume 1 and
num_tokens 1: in the non-comp branch the code only counts characters when
the formatted response is a dict, so a list of stream chunks contributes
nothing and the char_count == 0 fallback fires. This is at task_type
"TEXT" (the enum spelling the comparison accepts); at the lowercase
"text" stored in the repository's task config tables the function instead
raises ValueError. -/
theorem calculate_work_stream_chunks_returns_unit :
    calculate_work (some "TEXT") (some "chat-llama-3-2-3b")
      (some (.arr [s1_chunk, s1_chunk, s1_chunk])) 2 none none none = .ok (1, 1) ∧
    calculate_work (some "text") (some "chat-llama-3-2-3b")
      (some (.arr [s1_chunk, s1_chunk, s1_chunk])) 2 none none none = .error .valueError ∧
    (1 : ℚ) ≠ 17/20 ∧ (1 : ℚ) ≠ 3 := by
  refine ⟨?_, ?_, by norm_num, by norm_num⟩ <;>
    simp +decide [calculate_work, s1_chunk, calculate_work_chars, calculate_work_chunk_chars,
      Json.truthy, Json.pyIter, Json.isObj, Json.pySubscript, Json.pyIndex, Json.pyLen,
      Json.pyContains, strContains, listContainsSub]

/-- Claim C2: Enqueue of a task whose id is not in the deduplication set
adds the id to the set, pushes the task JSON exactly once and returns
true; a second call with the same id while the id is still in the set
returns false and leaves the state unchanged, so two Enqueue calls with
one task id produce exactly one RPUSH. The SADD-then-RPUSH pair runs as a
single server-side Lua step, embedded as one transition. -/
theorem add_task_to_queue_enqueue_once (st : RedisQueueState) (tid tj1 tj2 : String)
    (h : tid ∉ st.seen) :
    (add_task_to_queue st (some tid) tj1).2 = true ∧
    (add_task_to_queue st (some tid) tj1).1.seen = tid :: st.seen ∧
    (add_task_to_queue st (some tid) tj1).1.queue = st.queue ++ [tj1] ∧
    (add_task_to_queue (add_task_to_queue st (some tid) tj1).1 (some tid) tj2).2 = false ∧
    (add_task_to_queue (add_task_to_queue st (some tid) tj1).1 (some tid) tj2).1 =
      (add_task_to_queue st (some tid) tj1).1 := by
  simp [add_task_to_queue, h]

/-- Claim C2 witness: the theorem applied to the empty queue state and
task id "t9". -/
theorem add_task_to_queue_enqueue_once_witness :
    "t9" ∉ (⟨[], []⟩ : RedisQueueState).seen ∧
    ((add_task_to_queue ⟨[], []⟩ (some "t9") "j1").2 = true ∧
     (add_task_to_queue ⟨[], []⟩ (some "t9") "j1").1.seen = "t9" :: ([] : List String) ∧
     (add_task_to_queue ⟨[], []⟩ (some "t9") "j1").1.queue = [] ++ ["j1"] ∧
     (add_task_to_queue (add_task_to_queue ⟨[], []⟩ (some "t9") "j1").1 (some "t9") "j2").2 = false ∧
     (add_task_to_queue (add_task_to_queue ⟨[], []⟩ (some "t9") "j1").1 (some "t9") "j2").1 =
       (add_task_to_queue ⟨[], []⟩ (some "t9") "j1").1) :=
  ⟨by decide, add_task_to_queue_enqueue_once ⟨[], []⟩ "t9" "j1" "j2" (by decide)⟩

/-- Claim C6 counterexample: for a failed 429 query result the claim says
a RewardData record is still emitted, but adjust_contender_from_result
only sets quality_score 0.0 and emits nothing (while the allocator does
increment requests_500 for the failed contender). -/
theorem adjust_contender_429_emits_no_reward_cex :
    adjust_contender_from_result result_429 empty_payload (some chat_task_config) true =
      { quality_score := some 0, reward_emitted := false, scoring_recorded := false } ∧
    update_contender_stats 3 0 0 false = (3, 0, 1) := by
  constructor
  · decide
  · decide

/-- Claim C6 amended: for every query result that is not a 200 success,
adjust_contender_from_result returns quality_score 0.0 but emits no
RewardData and records nothing in the scoring history - reward reporting
happens only for 200 successes (and sus-mode fraud detections). -/
theorem adjust_contender_failure_no_reward (r : QueryResultE) (p : PayloadE)
    (tc : TaskConfigE) (hc : Bool)
    (h : ¬(r.status_code = some 200 ∧ r.success = true)) :
    adjust_contender_from_result r p (some tc) hc =
      { quality_score := some 0, reward_emitted := false, scoring_recorded := false } := by
  unfold adjust_contender_from_result
  have hcond : (r.status_code == some 200 && r.success) = false := by
    rcases Bool.eq_false_or_eq_true r.success with hs | hs
    · have : ¬ r.status_code = some 200 := fun hh => h ⟨hh, hs⟩
      simp [this]
    · simp [hs]
  simp [hcond]

/-- Claim C6 witness: the amended theorem applied to the concrete 429
result. -/
theorem adjust_contender_failure_no_reward_witness :
    (¬(result_429.status_code = some 200 ∧ result_429.success = true)) ∧
    adjust_contender_from_result result_429 empty_payload (some chat_task_config) true =
      { quality_score := some 0, reward_emitted := false, scoring_recorded := false } :=
  ⟨by decide, adjust_contender_failure_no_reward result_429 empty_payload chat_task_config true (by decide)⟩

/-- Claim C7 counterexample: with no session in the Handshake Manager the
claim says the dispatcher skips the contender without issuing an HTTP
query, but _create_node_for_query falls back to a freshly generated
Fernet key and returns a node, and _handle_stream_query then reaches the
streamed POST. -/
theorem create_node_missing_session_still_queries_cex :
    create_node_for_query (some "5HxMiner") true none true = some .freshKey ∧
    handle_stream_query_issues_http true
      (create_node_for_query (some "5HxMiner") true none true) true true true = true := by
  decide

/-- Claim C7 amended: for every contender whose miner hotkey has no
session or a session with handshake_success false, the dispatcher does
not skip: when the node cache has the hotkey it builds a node with a
freshly generated symmetric key and still issues the HTTP query; only a
missing hotkey or missing node data aborts the dispatch. -/
theorem create_node_missing_or_failed_session_falls_back
    (hk : String) (hs : Option HandshakeData) (f : Bool)
    (hkne : hk ≠ "")
    (hbad : hs = none ∨ ∃ h, hs = some h ∧ h.handshake_success = false) :
    create_node_for_query (some hk) true hs f = some .freshKey ∧
    handle_stream_query_issues_http true
      (create_node_for_query (some hk) true hs f) true true true = true := by
  have hke : hk.isEmpty = false := by
    rcases Bool.eq_false_or_eq_true hk.isEmpty with hh | hh
    · exact absurd ((String.isEmpty_iff hk).mp hh) hkne
    · exact hh
  have hnode : create_node_for_query (some hk) true hs f = some .freshKey := by
    rcases hbad with rfl | ⟨hd, rfl, hfail⟩
    · simp [create_node_for_query, hke]
    · simp [create_node_for_query, hke, hfail]
  exact ⟨hnode, by simp [handle_stream_query_issues_http, hnode]⟩

/-- Claim C7 witness: the amended theorem applied to a concrete hotkey
with no session. -/
theorem create_node_missing_or_failed_session_falls_back_witness :
    (("5HxMiner" : String) ≠ "" ∧
      ((none : Option HandshakeData) = none ∨
        ∃ h, (none : Option HandshakeData) = some h ∧ h.handshake_success = false)) ∧
    (create_node_for_query (some "5HxMiner") true none true = some .freshKey ∧
     handle_stream_query_issues_http true
       (create_node_for_query (some "5HxMiner") true none true) true true true = true) :=
  ⟨⟨by decide, Or.inl rfl⟩,
   create_node_missing_or_failed_session_falls_back "5HxMiner" none true (by decide) (Or.inl rfl)⟩

/-- Claim C8 counterexample: a successful 200 result with response time
40 s scores 0.08001, not exactly 0.1: the 0.1 early return of the base
score is afterwards multiplied by the performance factor
0.8 + 0.2 * min(metric / 100, 1). -/
theorem score_result_slow_not_exactly_tenth_cex :
    score_result slow_chat_result empty_payload (some chat_task_config) = 8001/100000 ∧
    (8001 : ℚ)/100000 ≠ 1/10 := by
  constructor
  · simp +decide [score_result, slow_chat_result, empty_payload, chat_task_config,
      calculate_input_character_count, calculate_work, calculate_work_chars,
      calculate_work_chunk_chars, Json.truthy, Json.pyIter, Json.pySubscript, Json.pyIndex,
      Json.pyLen, Json.pyContains, Json.isObj, strContains, listContainsSub,
      calculate_work_text, calculate_base_score, apply_quality_adjustments, pyMin, pyMax,
      strStartsWith]
    norm_num [show "ABCDEFGH".length = 8 from by decide]
  · norm_num

/-- Bounds of the quality adjustments applied to the base score 0.1 of a
200 result: the two performance factors lie in 0.8..1 and 0.9..1. -/
theorem apply_adjustments_tenth_bounds (m s : ℚ) :
    9/125 ≤ apply_quality_adjustments (1/10) (some 200) m s ∧
    apply_quality_adjustments (1/10) (some 200) m s ≤ 1/10 := by
  unfold apply_quality_adjustments pyMin
  simp only [show ((some 200 : Option ℤ) == some 200) = true from rfl, if_true,
    show ((some 200 : Option ℤ) == some 400) = false from rfl]
  split_ifs with h1 h2 h3 h4 h5 h6 h7 h8 <;> constructor <;> nlinarith

/-- Claim C8 amended: for every 200-success result with response time
over 30 seconds (and a work computation that does not raise), the scorer
returns the 0.1 base score multiplied by the performance factors, a value
between 0.072 and 0.1; it equals 0.1 exactly only when both factors are
absent or saturated. -/
theorem score_result_slow_response_bounds (r : QueryResultE) (p : PayloadE)
    (tc : TaskConfigE) (t : ℚ) (ic : ℕ) (v n : ℚ)
    (hsucc : r.success = true) (hstatus : r.status_code = some 200)
    (ht : r.response_time = some t) (ht30 : 30 < t)
    (hic : calculate_input_character_count p = .ok ic)
    (hwork : calculate_work tc.task_type tc.task r.formatted_response ic p.steps p.width p.height
      = .ok (v, n)) :
    9/125 ≤ score_result r p (some tc) ∧ score_result r p (some tc) ≤ 1/10 := by
  have htne : (t != 0) = true := by
    simp only [bne_iff_ne, ne_eq]
    intro h0
    rw [h0] at ht30
    norm_num at ht30
  have hbase :
      ∀ m sm : ℚ, calculate_base_score r m sm = 1/10 := by
    intro m sm
    unfold calculate_base_score
    rw [hsucc, hstatus, ht]
    simp [htne, ht30]
  unfold score_result
  simp only [hic, hwork]
  rw [hbase]
  set m := (match r.response_time with
    | some t => if (t != 0) = true then v / t else 0
    | none => 0) with hm
  set sm := (match r.stream_time with
    | some t => if (t != 0) = true then n / t else 0
    | none => 0) with hsm
  obtain ⟨hlo, hhi⟩ := apply_adjustments_tenth_bounds m sm
  rw [hstatus]
  have hmin : pyMin 1 (apply_quality_adjustments (1/10) (some 200) m sm)
      = apply_quality_adjustments (1/10) (some 200) m sm := by
    unfold pyMin
    rw [if_neg (not_le.mpr (by linarith))]
  have hmax : pyMax 0 (pyMin 1 (apply_quality_adjustments (1/10) (some 200) m sm))
      = apply_quality_adjustments (1/10) (some 200) m sm := by
    rw [hmin]
    unfold pyMax
    rw [if_neg (not_le.mpr (by linarith))]
  rw [hmax]
  exact ⟨hlo, hhi⟩

/-- Claim C8 witness: the amended theorem applied to the concrete slow
chat result. -/
theorem score_result_slow_response_bounds_witness :
    (slow_chat_result.success = true ∧
     slow_chat_result.status_code = some 200 ∧
     slow_chat_result.response_time = some 40 ∧
     (30 : ℚ) < 40 ∧
     calculate_input_character_count empty_payload = .ok 0 ∧
     calculate_work chat_task_config.task_type chat_task_config.task
       slow_chat_result.formatted_response 0 empty_payload.steps empty_payload.width
       empty_payload.height = .ok (2, 1)) ∧
    (9/125 ≤ score_result slow_chat_result empty_payload (some chat_task_config) ∧
     score_result slow_chat_result empty_payload (some chat_task_config) ≤ 1/10) :=
  ⟨⟨rfl, rfl, rfl, by norm_num, rfl, by
      simp +decide [calculate_work, slow_chat_result, chat_task_config, empty_payload,
        calculate_work_chars, calculate_work_chunk_chars, Json.truthy, Json.pyIter,
        Json.pySubscript, Json.pyIndex, Json.pyLen, Json.pyContains, Json.isObj,
        strContains, listContainsSub, calculate_work_text]
      norm_num [show "ABCDEFGH".length = 8 from by decide]⟩,
   score_result_slow_response_bounds slow_chat_result empty_payload chat_task_config
     40 0 2 1 rfl rfl rfl (by norm_num) rfl (by
      simp +decide [calculate_work, slow_chat_result, chat_task_config, empty_payload,
        calculate_work_chars, calculate_work_chunk_chars, Json.truthy, Json.pyIter,
        Json.pySubscript, Json.pyIndex, Json.pyLen, Json.pyContains, Json.isObj,
        strContains, listContainsSub, calculate_work_text]
      norm_num [show "ABCDEFGH".length = 8 from by decide])⟩

/-- Length of the hotkey-replacement pass output. -/
theorem resync_zero_replaced_length (prev new : List String) (arr : List ℚ) :
    (resync_zero_replaced prev new arr).length = arr.length := by
  simp [resync_zero_replaced]

theorem resync_zero_replaced_get? (prev new : List String) (arr : List ℚ) (i : ℕ)
    (hi : i < arr.length) :
    (resync_zero_replaced prev new arr).get? i =
      some (if i < new.length && (prev.get? i != new.get? i) then 0 else arr.getD i 0) := by
  unfold resync_zero_replaced
  rw [List.get?_map, List.get?_range hi]
  rfl

theorem resync_grow_length (o n : ℕ) (arr : List ℚ) :
    (resync_grow o n arr).length = n := by
  simp [resync_grow]

theorem resync_grow_get? (o n : ℕ) (arr : List ℚ) (i : ℕ) (hi : i < n) :
    (resync_grow o n arr).get? i =
      some (if i < min o arr.length then arr.getD i 0 else 0) := by
  unfold resync_grow
  rw [List.get?_map, List.get?_range hi]
  rfl

/-- Claim C9: after a metagraph resync, every uid whose hotkey changed has
scores and moving_avg_scores reset to 0; on metagraph growth both score
arrays are extended to the new length, the new uids are zero-filled, and
the entries of unchanged uids are preserved. -/
theorem resync_metagraph_resets_and_extends (st : ValidatorArrays) (new : List String)
    (hs : st.scores.length = st.hotkeys.length)
    (hm : st.moving_avg_scores.length = st.hotkeys.length) :
    (∀ i, i < st.hotkeys.length → i < new.length → st.hotkeys.get? i ≠ new.get? i →
      (resync_metagraph st new).scores.get? i = some 0 ∧
      (resync_metagraph st new).moving_avg_scores.get? i = some 0) ∧
    (st.hotkeys.length < new.length →
      (resync_metagraph st new).scores.length = new.length ∧
      (resync_metagraph st new).moving_avg_scores.length = new.length ∧
      (∀ i, st.hotkeys.length ≤ i → i < new.length →
        (resync_metagraph st new).scores.get? i = some 0 ∧
        (resync_metagraph st new).moving_avg_scores.get? i = some 0) ∧
      (∀ i, i < st.hotkeys.length → st.hotkeys.get? i = new.get? i →
        (resync_metagraph st new).scores.get? i = st.scores.get? i ∧
        (resync_metagraph st new).moving_avg_scores.get? i = st.moving_avg_scores.get? i)) := by
  by_cases heq : st.hotkeys = new
  · constructor
    · intro i _ _ hne
      exact absurd (by rw [heq]) hne
    · intro hlt
      rw [heq] at hlt
      exact absurd hlt (lt_irrefl _)
  · have hbeq : (st.hotkeys == new) = false := beq_eq_false_iff_ne.mpr heq
    have hzl : ∀ arr : List ℚ, arr.length = st.hotkeys.length →
        ∀ i, i < st.hotkeys.length → i < new.length → st.hotkeys.get? i ≠ new.get? i →
        (resync_zero_replaced st.hotkeys new arr).get? i = some 0 := by
      intro arr hlen i hi hin hne
      rw [resync_zero_replaced_get? st.hotkeys new arr i (by omega)]
      have hb : (decide (i < new.length) && (st.hotkeys.get? i != new.get? i)) = true := by
        rw [Bool.and_eq_true]
        exact ⟨decide_eq_true hin, bne_iff_ne.mpr hne⟩
      rw [if_pos hb]
    have hpl : ∀ arr : List ℚ, arr.length = st.hotkeys.length →
        ∀ i, i < st.hotkeys.length → st.hotkeys.get? i = new.get? i →
        (resync_zero_replaced st.hotkeys new arr).get? i = arr.get? i := by
      intro arr hlen i hi hpe
      rw [resync_zero_replaced_get? st.hotkeys new arr i (by omega)]
      have hb : (st.hotkeys.get? i != new.get? i) = false := by
        rw [bne_eq_false_iff_eq]
        exact hpe
      rw [hb, Bool.and_false, if_neg Bool.false_ne_true,
        List.getD_eq_get?, List.get?_eq_get (show i < arr.length by omega)]
      simp
    by_cases hgrow : st.hotkeys.length < new.length
    · have hres : resync_metagraph st new =
          { hotkeys := new
            scores := resync_grow st.hotkeys.length new.length
              (resync_zero_replaced st.hotkeys new st.scores)
            moving_avg_scores := resync_grow st.hotkeys.length new.length
              (resync_zero_replaced st.hotkeys new st.moving_avg_scores) } := by
        unfold resync_metagraph
        rw [if_neg (by simp [hbeq]), if_pos hgrow]
      have hgget : ∀ arr : List ℚ, arr.length = st.hotkeys.length → ∀ i, i < new.length →
          (resync_grow st.hotkeys.length new.length
            (resync_zero_replaced st.hotkeys new arr)).get? i =
          some (if i < st.hotkeys.length
            then ((resync_zero_replaced st.hotkeys new arr).get? i).getD 0 else 0) := by
        intro arr hlen i hin
        rw [resync_grow_get? _ _ _ i hin, resync_zero_replaced_length, hlen, min_self,
          List.getD_eq_get?]
      refine ⟨?_, ?_⟩
      · intro i hi hin hne
        rw [hres]
        simp only
        constructor
        · rw [hgget st.scores hs i hin, if_pos hi, hzl st.scores hs i hi hin hne]
          rfl
        · rw [hgget st.moving_avg_scores hm i hin, if_pos hi,
            hzl st.moving_avg_scores hm i hi hin hne]
          rfl
      · intro _
        rw [hres]
        simp only
        refine ⟨?_, ?_, ?_, ?_⟩
        · rw [resync_grow_length]
        · rw [resync_grow_length]
        · intro i hge hin
          constructor
          · rw [hgget st.scores hs i hin, if_neg (by omega)]
          · rw [hgget st.moving_avg_scores hm i hin, if_neg (by omega)]
        · intro i hi hpe
          have hin : i < new.length := by omega
          constructor
          · rw [hgget st.scores hs i hin, if_pos hi, hpl st.scores hs i hi hpe,
              List.get?_eq_get (show i < st.scores.length by omega)]
            simp
          · rw [hgget st.moving_avg_scores hm i hin, if_pos hi,
              hpl st.moving_avg_scores hm i hi hpe,
              List.get?_eq_get (show i < st.moving_avg_scores.length by omega)]
            simp
    · have hres : resync_metagraph st new =
          { hotkeys := new
            scores := resync_zero_replaced st.hotkeys new st.scores
            moving_avg_scores := resync_zero_replaced st.hotkeys new st.moving_avg_scores } := by
        unfold resync_metagraph
        rw [if_neg (by simp [hbeq]), if_neg hgrow]
      refine ⟨?_, ?_⟩
      · intro i hi hin hne
        rw [hres]
        exact ⟨hzl st.scores hs i hi hin hne, hzl st.moving_avg_scores hm i hi hin hne⟩
      · intro hlt
        exact absurd hlt hgrow

/-- Claim C9 witness: the theorem applied to a two-entry state resynced
against a grown metagraph whose second hotkey changed. -/
theorem resync_metagraph_resets_and_extends_witness :
    ((⟨["hkA", "hkB"], [3, 7], [11, 13]⟩ : ValidatorArrays).scores.length =
       (⟨["hkA", "hkB"], [3, 7], [11, 13]⟩ : ValidatorArrays).hotkeys.length ∧
     (⟨["hkA", "hkB"], [3, 7], [11, 13]⟩ : ValidatorArrays).moving_avg_scores.length =
       (⟨["hkA", "hkB"], [3, 7], [11, 13]⟩ : ValidatorArrays).hotkeys.length) ∧
    ((resync_metagraph ⟨["hkA", "hkB"], [3, 7], [11, 13]⟩ ["hkA", "hkC", "hkD"]).scores.get? 1
        = some 0 ∧
     (resync_metagraph ⟨["hkA", "hkB"], [3, 7], [11, 13]⟩
        ["hkA", "hkC", "hkD"]).moving_avg_scores.get? 1 = some 0 ∧
     (resync_metagraph ⟨["hkA", "hkB"], [3, 7], [11, 13]⟩ ["hkA", "hkC", "hkD"]).scores.length
        = 3 ∧
     (resync_metagraph ⟨["hkA", "hkB"], [3, 7], [11, 13]⟩ ["hkA", "hkC", "hkD"]).scores.get? 2
        = some 0 ∧
     (resync_metagraph ⟨["hkA", "hkB"], [3, 7], [11, 13]⟩ ["hkA", "hkC", "hkD"]).scores.get? 0
        = some 3) := by
  have T := resync_metagraph_resets_and_extends
    ⟨["hkA", "hkB"], [3, 7], [11, 13]⟩ ["hkA", "hkC", "hkD"] rfl rfl
  refine ⟨⟨rfl, rfl⟩, ?_, ?_, ?_, ?_, ?_⟩
  · exact (T.1 1 (by decide) (by decide) (by decide)).1
  · exact (T.1 1 (by decide) (by decide) (by decide)).2
  · exact (T.2 (by decide)).1
  · exact ((T.2 (by decide)).2.2.1 2 (by decide) (by decide)).1
  · exact ((T.2 (by decide)).2.2.2 0 (by decide) (by decide)).1

/-- Loop invariant of the inner chunk loop: a final first_message of
false means a chunk was appended at some point. -/
theorem consume_inner_first_false_imp (comp : Bool) (nit : ℤ) :
    ∀ (cs acc : List Json) (counter : ℤ) (first : Bool) (tj : List Json) (cnt : ℤ),
      consume_inner comp nit cs acc counter first = .ok (tj, cnt, false) →
      (first = false → acc ≠ []) → tj ≠ []
  | [], acc, counter, first, tj, cnt => by
    intro h hpre
    unfold consume_inner at h
    injection h with h1
    injection h1 with ha h2
    injection h2 with hb hc
    subst ha
    exact hpre hc
  | c :: rest, acc, counter, first, tj, cnt => by
    intro h hpre
    unfold consume_inner at h
    cases c with
    | obj fs =>
      simp only at h
      cases hca : consume_chunk_access comp (Json.obj fs) with
      | error e =>
        rw [hca] at h
        cases e <;> simp only at h
        · injection h with h1
          injection h1 with ha h2
          injection h2 with hb hc
          exact absurd hc (by decide)
        all_goals exact absurd h (by simp)
      | ok v =>
        rw [hca] at h
        simp only at h
        cases hfr : finish_reason_present ((Json.obj fs).objSet "usage" (.obj
            [("prompt_tokens", .num (nit : ℚ)),
             ("completion_tokens", .num ((counter + 1 : ℤ) : ℚ)),
             ("total_tokens", .num ((nit + (counter + 1) : ℤ) : ℚ))])) with
        | error e =>
          rw [hfr] at h
          exact absurd h (by simp)
        | ok b =>
          rw [hfr] at h
          cases b with
          | true =>
            simp only at h
            injection h with h1
            injection h1 with ha h2
            subst ha
            simp
          | false =>
            simp only at h
            exact consume_inner_first_false_imp comp nit rest _ _ _ tj cnt h
              (fun _ => by simp)
    | null => exact absurd h (by simp [consume_inner])
    | str s =>
      simp only at h
      injection h with h1
      injection h1 with ha h2
      injection h2 with hb hc
      exact absurd hc (by decide)
    | num q =>
      simp only at h
      injection h with h1
      injection h1 with ha h2
      injection h2 with hb hc
      exact absurd hc (by decide)
    | bool b =>
      simp only at h
      injection h with h1
      injection h1 with ha h2
      injection h2 with hb hc
      exact absurd hc (by decide)
    | arr l =>
      simp only at h
      injection h with h1
      injection h1 with ha h2
      injection h2 with hb hc
      exact absurd hc (by decide)

/-- Loop invariant of the outer event loop: a final first_message of
false means the accumulated chunk list is nonempty. -/
theorem consume_outer_first_false_imp (comp : Bool) (nit : ℤ) :
    ∀ (events : List StreamEvent) (acc : List Json) (counter : ℤ) (first : Bool)
      (tj : List Json),
      consume_outer comp nit events acc counter first = .ok (tj, false) →
      (first = false → acc ≠ []) → tj ≠ []
  | [], acc, counter, first, tj => by
    intro h hpre
    unfold consume_outer at h
    injection h with h1
    injection h1 with ha hb
    subst ha
    exact hpre hb
  | .errorEvent d :: rest, acc, counter, first, tj => by
    intro h hpre
    unfold consume_outer at h
    injection h with h1
    injection h1 with ha hb
    subst ha
    exact hpre hb
  | .parseFailure :: rest, acc, counter, first, tj => by
    intro h hpre
    unfold consume_outer at h
    injection h with h1
    injection h1 with ha hb
    subst ha
    exact hpre hb
  | .chunks cs :: rest, acc, counter, first, tj => by
    intro h hpre
    unfold consume_outer at h
    simp only at h
    cases hci : consume_inner comp nit cs acc counter first with
    | error e =>
      rw [hci] at h
      exact absurd h (by simp)
    | ok res =>
      obtain ⟨acc1, counter1, first1⟩ := res
      rw [hci] at h
      simp only at h
      exact consume_outer_first_false_imp comp nit rest acc1 counter1 first1 tj h
        (fun hf1 => consume_inner_first_false_imp comp nit cs acc counter first acc1 counter1
          (by rw [hci, hf1]) hpre)

/-- Claim C10 amended: whenever the streaming consumer finishes without an
internal exception its QueryResult has status_code 200 (an error event's
status code is read into a local variable and ignored), and a result with
no formatted response always has success false. The converse direction of
the original claim fails: see the counterexample. -/
theorem consume_generator_status_always_200 (task : String) (events : List StreamEvent)
    (prompt : Option String) (messages : Option (List Json)) (node_id : ℤ)
    (hotkey : String) (rt stm : ℚ) (nit : ℤ) (tj : List Json) (fm : Bool)
    (hn : consume_num_input_tokens prompt messages = .ok nit)
    (ho : consume_outer (strContains "comp" task) nit events [] 0 true = .ok (tj, fm)) :
    (consume_generator task events prompt messages node_id hotkey rt stm).status_code
      = some 200 ∧
    ((consume_generator task events prompt messages node_id hotkey rt stm).formatted_response
        = none →
      (consume_generator task events prompt messages node_id hotkey rt stm).success = false) := by
  have hres : consume_generator task events prompt messages node_id hotkey rt stm =
      { formatted_response := if 0 < tj.length then some (.arr tj) else none
        node_id := some node_id
        node_hotkey := some hotkey
        response_time := some rt
        stream_time := some (if tj.isEmpty then rt else stm)
        task := task
        status_code := some 200
        success := !fm } := by
    unfold consume_generator
    simp only [hn, ho]
  rw [hres]
  refine ⟨rfl, ?_⟩
  intro hfr
  simp only at hfr
  have htj : tj = [] := by
    by_cases hlen : 0 < tj.length
    · rw [if_pos hlen] at hfr
      exact absurd hfr (by simp)
    · exact List.length_eq_zero.mp (by omega)
  have hfm : fm = true := by
    by_cases hf : fm = false
    · exfalso
      exact consume_outer_first_false_imp (strContains "comp" task) nit events [] 0 true tj
        (by rw [ho, hf]) (fun htf => absurd htf (by decide)) htj
    · exact Bool.eq_true_of_ne_false hf
  simp only [hfm, Bool.not_true]

/-- Claim C10 counterexample: a stream that delivers one valid chunk and
then one chunk without delta content ends with success false even though
a chunk with valid content was parsed, and its formatted_response is not
None - refuting that success is false exactly when no valid chunk was
parsed with formatted_response None in that case. -/
theorem consume_generator_success_flag_cex :
    (consume_generator "chat-llama-3-2-3b" [.chunks [valid_chunk], .chunks [invalid_chunk]]
      none (some [.obj [("content", .str "hi")]]) 7 "hkM" 2 1).success = false ∧
    (consume_generator "chat-llama-3-2-3b" [.chunks [valid_chunk], .chunks [invalid_chunk]]
      none (some [.obj [("content", .str "hi")]]) 7 "hkM" 2 1).formatted_response.isSome
      = true ∧
    (consume_generator "chat-llama-3-2-3b" [.chunks [valid_chunk], .chunks [invalid_chunk]]
      none (some [.obj [("content", .str "hi")]]) 7 "hkM" 2 1).status_code = some 200 := by
  refine ⟨?_, ?_, ?_⟩ <;>
    simp +decide [consume_generator, consume_num_input_tokens, consume_messages_char_sum,
      consume_outer, consume_inner, consume_chunk_access, finish_reason_present,
      valid_chunk, invalid_chunk, Json.pySubscript, Json.pyIndex, Json.pyLen,
      Json.pyContains, Json.objSet, strContains, listContainsSub]

/-- Claim C10 witness: the amended theorem applied to an empty stream. -/
theorem consume_generator_status_always_200_witness :
    (consume_num_input_tokens none none = .ok 0 ∧
     consume_outer (strContains "comp" "chat-llama-3-2-3b") 0 [] [] 0 true = .ok ([], true)) ∧
    ((consume_generator "chat-llama-3-2-3b" [] none none 7 "hkM" 2 1).status_code
        = some 200 ∧
     ((consume_generator "chat-llama-3-2-3b" [] none none 7 "hkM" 2 1).formatted_response
         = none →
       (consume_generator "chat-llama-3-2-3b" [] none none 7 "hkM" 2 1).success = false)) :=
  ⟨⟨rfl, rfl⟩,
   consume_generator_status_always_200 "chat-llama-3-2-3b" [] none none 7 "hkM" 2 1
     0 [] true rfl rfl⟩
